import Mathlib

/-!
Verification of the Sliding Unique Window Store from the Average Calculator
HTTP microservice (Go, main.go). The source file contains two near-duplicate
program variants; the store of the first variant is embedded under the Go
names (WindowSize, NumberStore, AddNumbers, GetAverage, GetCurrentState),
and the second variants store under the same names with suffix 02.
Machine integers are modelled as unbounded Int (no overflow is relevant to
the claims) and the float64 average as an exact rational.
-/

/-- Maximum number of numbers to store in the sliding window (Go constant
WindowSize = 10). -/
def WindowSize : Nat := 10

/-- The sliding-window store: the ordered sequence of accepted integers.
The sync.RWMutex field only mediates concurrent access and has no
sequential content, so it is not part of the state. -/
structure NumberStore where
  numbers : List Int
deriving DecidableEq, Repr

/-- The per-call loop of AddNumbers: for each incoming num in order, if num
is not in the membership set uniqueNumbers, append it to the window and add
it to the set. Returns the final window and membership set. The Go map
uniqueNumbers is modelled as a list used only through membership. -/
def mergeLoop : List Int → List Int → List Int → List Int × List Int
  | acc, seen, [] => (acc, seen)
  | acc, seen, num :: rest =>
    if num ∈ seen then mergeLoop acc seen rest
    else mergeLoop (acc ++ [num]) (seen ++ [num]) rest

/-- The window after the append loop of AddNumbers, before truncation:
mergeLoop started from the current window, with the membership set
initialised from the current window. -/
def appendedWindow (ns : NumberStore) (newNumbers : List Int) : List Int :=
  (mergeLoop ns.numbers ns.numbers newNumbers).1

/-- Variant 1 AddNumbers: snapshot the current window, append the unique
incoming numbers, keep only the last WindowSize numbers if the window
overflows, and return the snapshot together with the mutated store. -/
def AddNumbers (ns : NumberStore) (newNumbers : List Int) :
    List Int × NumberStore :=
  let prevState := ns.numbers
  let merged := appendedWindow ns newNumbers
  let final :=
    if merged.length > WindowSize then merged.drop (merged.length - WindowSize)
    else merged
  (prevState, ⟨final⟩)

/-- Variant 1 GetAverage: 0 on the empty window, otherwise the sum of the
window divided by its length. Go performs float64 division; here the exact
rational value is used. -/
def GetAverage (ns : NumberStore) : ℚ :=
  if ns.numbers.length = 0 then 0
  else (ns.numbers.sum : ℚ) / (ns.numbers.length : ℚ)

/-- Variant 1 GetCurrentState: a by-value copy of the current window. -/
def GetCurrentState (ns : NumberStore) : List Int :=
  ns.numbers

/-- Variant 2 merge loop (textually identical logic in the source). -/
def mergeLoop02 : List Int → List Int → List Int → List Int × List Int
  | acc, seen, [] => (acc, seen)
  | acc, seen, num :: rest =>
    if num ∈ seen then mergeLoop02 acc seen rest
    else mergeLoop02 (acc ++ [num]) (seen ++ [num]) rest

/-- Variant 2 AddNumbers. -/
def AddNumbers02 (ns : NumberStore) (newNumbers : List Int) :
    List Int × NumberStore :=
  let prevState := ns.numbers
  let merged := (mergeLoop02 ns.numbers ns.numbers newNumbers).1
  let final :=
    if merged.length > WindowSize then merged.drop (merged.length - WindowSize)
    else merged
  (prevState, ⟨final⟩)

/-- Variant 2 GetAverage. -/
def GetAverage02 (ns : NumberStore) : ℚ :=
  if ns.numbers.length = 0 then 0
  else (ns.numbers.sum : ℚ) / (ns.numbers.length : ℚ)

/-- Variant 2 GetCurrentState. -/
def GetCurrentState02 (ns : NumberStore) : List Int :=
  ns.numbers

/-- Run a sequence of merges with variant 1 AddNumbers, starting from a
given store, discarding the returned snapshots. -/
def runMerges (ns : NumberStore) (batches : List (List Int)) : NumberStore :=
  batches.foldl (fun s b => (AddNumbers s b).2) ns

/-- The JSON body produced by a handler on a failed upstream fetch. Fields
that a variant does not emit are none. The numbers field of variant 1 is
emitted as the Go nil slice and carries no window data, so it is omitted
here; average is the exact rational of the emitted float64. -/
structure FetchErrorReply where
  error : String
  windowPrevState : Option (List Int)
  windowCurrState : Option (List Int)
  avg : Option ℚ
deriving DecidableEq, Repr

/-- Variant 1 handler, fetch-error branch (main.go lines 197 to 207): the
store is not merged into; the reply carries the current window as both
previous and current state plus the current average. Returns the reply and
the (unchanged) store. -/
def handleFetchError (store : NumberStore) (errMsg : String) :
    FetchErrorReply × NumberStore :=
  ({ error := "Failed to fetch numbers: " ++ errMsg
   , windowPrevState := some (GetCurrentState store)
   , windowCurrState := some (GetCurrentState store)
   , avg := some (GetAverage store) }, store)

/-- Variant 2 handler, fetch-error branch (main.go lines 395 to 399): the
store is not merged into; the reply carries only the error message. -/
def handleFetchError02 (store : NumberStore) (errMsg : String) :
    FetchErrorReply × NumberStore :=
  ({ error := errMsg
   , windowPrevState := none
   , windowCurrState := none
   , avg := none }, store)

example : (AddNumbers ⟨[]⟩ [4, 7, 7, 9]).2.numbers = [4, 7, 9] := by decide

example : (AddNumbers ⟨[4, 7, 9]⟩ [7, 2]) = ([4, 7, 9], ⟨[4, 7, 9, 2]⟩) := by
  decide

example : GetAverage ⟨[2, 4, 6, 8]⟩ = 5 := by norm_num [GetAverage]

/-! ## Helper lemmas -/

/-- The two textually duplicated merge loops agree. -/
theorem mergeLoop_eq_02 :
    ∀ (b acc seen : List Int), mergeLoop acc seen b = mergeLoop02 acc seen b := by
  intro b
  induction b with
  | nil => intro acc seen; rfl
  | cons n rest ih =>
    intro acc seen
    by_cases h : n ∈ seen
    · simp [mergeLoop, mergeLoop02, h, ih]
    · simp [mergeLoop, mergeLoop02, h, ih]

/-- One merge always leaves the window at length at most WindowSize. -/
theorem length_AddNumbers_le (ns : NumberStore) (b : List Int) :
    ((AddNumbers ns b).2).numbers.length ≤ WindowSize := by
  unfold AddNumbers
  by_cases h : (appendedWindow ns b).length > WindowSize
  · simp only [h, if_true]
    rw [List.length_drop]
    omega
  · simp only [h, if_false]
    omega

/-- runMerges keeps the length bound whenever the start state satisfies it. -/
theorem length_runMerges_le (batches : List (List Int)) :
    ∀ ns : NumberStore, ns.numbers.length ≤ WindowSize →
      (runMerges ns batches).numbers.length ≤ WindowSize := by
  induction batches with
  | nil => intro ns h; exact h
  | cons b rest ih =>
    intro ns _
    exact ih (AddNumbers ns b).2 (length_AddNumbers_le ns b)

/-- The merge loop yields a duplicate-free window whenever the starting
window is duplicate-free and is covered by the membership set. -/
theorem mergeLoop_nodup :
    ∀ (b acc seen : List Int), acc.Nodup → (∀ x ∈ acc, x ∈ seen) →
      (mergeLoop acc seen b).1.Nodup := by
  intro b
  induction b with
  | nil => intro acc seen hnd _; exact hnd
  | cons n rest ih =>
    intro acc seen hnd hsub
    by_cases h : n ∈ seen
    · simpa [mergeLoop, h] using ih acc seen hnd hsub
    · have hna : n ∉ acc := fun hc => h (hsub n hc)
      have hnd2 : (acc ++ [n]).Nodup := by
        simp [List.nodup_append, hnd, hna]
      have hsub2 : ∀ x ∈ acc ++ [n], x ∈ seen ++ [n] := by
        intro x hx
        rcases List.mem_append.mp hx with hx | hx
        · exact List.mem_append.mpr (Or.inl (hsub x hx))
        · exact List.mem_append.mpr (Or.inr hx)
      simpa [mergeLoop, h] using ih (acc ++ [n]) (seen ++ [n]) hnd2 hsub2

/-- A batch contained in the membership set leaves the merge loop state
unchanged. -/
theorem mergeLoop_subset_noop :
    ∀ (b acc seen : List Int), (∀ x ∈ b, x ∈ seen) →
      mergeLoop acc seen b = (acc, seen) := by
  intro b
  induction b with
  | nil => intro acc seen _; rfl
  | cons n rest ih =>
    intro acc seen hsub
    have hn : n ∈ seen := hsub n (List.mem_cons_self n rest)
    have : ∀ x ∈ rest, x ∈ seen := fun x hx => hsub x (List.mem_cons_of_mem n hx)
    simp [mergeLoop, hn, ih acc seen this]

/-- A single incoming value absent from the membership set is appended to
both the window and the set. -/
theorem mergeLoop_single_new (acc seen : List Int) (x : Int) (hx : x ∉ seen) :
    mergeLoop acc seen [x] = (acc ++ [x], seen ++ [x]) := by
  simp [mergeLoop, hx]

/-! ## Claim theorems -/

/-- C1: for every sequence of AddNumbers calls starting from the empty
window, the window length is at most WindowSize = 10 immediately after
every merge (every sequence of batches is covered, hence every point after
a merge). -/
theorem spec_C1 (batches : List (List Int)) :
    (runMerges ⟨[]⟩ batches).numbers.length ≤ WindowSize :=
  length_runMerges_le batches ⟨[]⟩ (by simp)

/-- C2: a merge on a duplicate-free window yields a duplicate-free window;
uniqueness is checked against the pre-merge window plus the values already
accepted in the same call, so repeats within one batch enter at most once. -/
theorem spec_C2 (ns : NumberStore) (b : List Int) (h : ns.numbers.Nodup) :
    ((AddNumbers ns b).2).numbers.Nodup := by
  have hm : (appendedWindow ns b).Nodup :=
    mergeLoop_nodup b ns.numbers ns.numbers h (fun x hx => hx)
  unfold AddNumbers
  by_cases hlen : (appendedWindow ns b).length > WindowSize
  · simp only [hlen, if_true]
    exact (List.drop_sublist _ _).nodup hm
  · simpa only [hlen, if_false] using hm

theorem spec_C2_witness :
    ([3, 1, 4] : List Int).Nodup ∧
      ((AddNumbers ⟨[3, 1, 4]⟩ [1, 5, 5, 9]).2).numbers.Nodup :=
  ⟨by decide, spec_C2 ⟨[3, 1, 4]⟩ [1, 5, 5, 9] (by decide)⟩

/-- C3: when the appends push the window past WindowSize, the post-merge
window is exactly the last WindowSize elements of the appended sequence in
order; in particular a window at capacity merging one new unique value
drops its oldest element and appends the new value at the end. -/
theorem spec_C3 :
    (∀ (ns : NumberStore) (b : List Int),
        WindowSize < (appendedWindow ns b).length →
        ((AddNumbers ns b).2).numbers =
          (appendedWindow ns b).drop ((appendedWindow ns b).length - WindowSize)) ∧
    (∀ (ns : NumberStore) (x : Int),
        ns.numbers.length = WindowSize → x ∉ ns.numbers →
        ((AddNumbers ns [x]).2).numbers = ns.numbers.drop 1 ++ [x]) := by
  constructor
  · intro ns b h
    simp only [AddNumbers, gt_iff_lt, h, if_true]
  · intro ns x hlen hx
    have hm : appendedWindow ns [x] = ns.numbers ++ [x] := by
      unfold appendedWindow
      rw [mergeLoop_single_new ns.numbers ns.numbers x hx]
    have hlm : (ns.numbers ++ [x]).length = WindowSize + 1 := by
      simp [hlen]
    have hdrop : (ns.numbers ++ [x]).drop 1 = ns.numbers.drop 1 ++ [x] := by
      rw [List.drop_append_eq_append_drop, hlen]
      norm_num [WindowSize]
    simp only [AddNumbers, gt_iff_lt, hm, hlm, Nat.lt_succ_self, if_true,
      Nat.add_sub_cancel_left, hdrop]

theorem spec_C3_witness :
    ((⟨[1, 2, 3, 4, 5, 6, 7, 8, 9, 10]⟩ : NumberStore)).numbers.length = WindowSize ∧
      (11 : Int) ∉ (([1, 2, 3, 4, 5, 6, 7, 8, 9, 10] : List Int)) ∧
      ((AddNumbers ⟨[1, 2, 3, 4, 5, 6, 7, 8, 9, 10]⟩ [11]).2).numbers =
        ([1, 2, 3, 4, 5, 6, 7, 8, 9, 10] : List Int).drop 1 ++ [11] :=
  ⟨by decide, by decide,
    spec_C3.2 ⟨[1, 2, 3, 4, 5, 6, 7, 8, 9, 10]⟩ 11 (by decide) (by decide)⟩

/-- C4: AddNumbers returns the pre-merge window contents as its snapshot,
for every window state and every incoming batch; in the embedding the Go
by-value copy is the returned list being exactly the pre-merge window. -/
theorem spec_C4 (ns : NumberStore) (b : List Int) :
    (AddNumbers ns b).1 = ns.numbers := rfl

/-- C5: GetAverage returns 0 on the empty window, otherwise the sum of the
window divided by its length (exact rational of the float64 division); the
average of the window [2, 4, 6, 8] is 5. -/
theorem spec_C5 :
    GetAverage ⟨[]⟩ = 0 ∧
    (∀ ns : NumberStore, ns.numbers ≠ [] →
        GetAverage ns = (ns.numbers.sum : ℚ) / (ns.numbers.length : ℚ)) ∧
    GetAverage ⟨[2, 4, 6, 8]⟩ = 5 := by
  refine ⟨by simp [GetAverage], ?_, by norm_num [GetAverage]⟩
  intro ns h
  unfold GetAverage
  rw [if_neg (fun hl => h (List.length_eq_zero.mp hl))]

theorem spec_C5_witness :
    ((⟨[1, 2]⟩ : NumberStore)).numbers ≠ [] ∧
      GetAverage ⟨[1, 2]⟩ =
        ((([1, 2] : List Int).sum : ℚ) / ((([1, 2] : List Int).length : ℚ))) :=
  ⟨by decide, spec_C5.2.1 ⟨[1, 2]⟩ (by decide)⟩

/-- C6: merging a non-empty batch whose values are all already in the
window returns the prior snapshot and leaves the window unchanged, for
every window state satisfying the data-model bound len ≤ WindowSize. -/
theorem spec_C6 (ns : NumberStore) (b : List Int)
    (hlen : ns.numbers.length ≤ WindowSize) (_hne : b ≠ [])
    (hb : ∀ x ∈ b, x ∈ ns.numbers) :
    AddNumbers ns b = (ns.numbers, ns) := by
  have hm : appendedWindow ns b = ns.numbers := by
    unfold appendedWindow
    rw [mergeLoop_subset_noop b ns.numbers ns.numbers hb]
  simp only [AddNumbers, hm, gt_iff_lt, Nat.not_lt.mpr hlen, if_false]

theorem spec_C6_witness :
    ((⟨[5, 6]⟩ : NumberStore)).numbers.length ≤ WindowSize ∧
      ([6, 5, 6] : List Int) ≠ [] ∧
      (∀ x ∈ ([6, 5, 6] : List Int), x ∈ ([5, 6] : List Int)) ∧
      AddNumbers ⟨[5, 6]⟩ [6, 5, 6] = ([5, 6], ⟨[5, 6]⟩) :=
  ⟨by decide, by decide, by decide,
    spec_C6 ⟨[5, 6]⟩ [6, 5, 6] (by decide) (by decide) (by decide)⟩

/-- C7 counterexample: in variant 2 the fetch-error branch does not report
the current window; on the concrete store [1, 2] its reply carries no
current-window field at all, so the claim that the handler reports the
unchanged window as both previous and current state fails for variant 2. -/
theorem spec_C7_counterexample :
    ¬ ((handleFetchError02 ⟨[1, 2]⟩ "boom").1.windowCurrState =
        some (GetCurrentState ⟨[1, 2]⟩) ∧
       (handleFetchError02 ⟨[1, 2]⟩ "boom").1.windowPrevState =
        some (GetCurrentState ⟨[1, 2]⟩)) := by
  intro h
  exact Option.noConfusion h.1

/-- C7 amended: on a failed upstream fetch neither variant merges and both
leave the store unchanged; variant 1 reports the unchanged window as both
previous and current state together with the current average and an error
indicator, while variant 2 reports only the error message, with no window
state and no average. -/
theorem spec_C7 (store : NumberStore) (msg : String) :
    (handleFetchError store msg).2 = store ∧
    (handleFetchError store msg).1.windowPrevState = some (GetCurrentState store) ∧
    (handleFetchError store msg).1.windowCurrState = some (GetCurrentState store) ∧
    (handleFetchError store msg).1.avg = some (GetAverage store) ∧
    (handleFetchError store msg).1.error = "Failed to fetch numbers: " ++ msg ∧
    (handleFetchError02 store msg).2 = store ∧
    (handleFetchError02 store msg).1.error = msg ∧
    (handleFetchError02 store msg).1.windowPrevState = none ∧
    (handleFetchError02 store msg).1.windowCurrState = none ∧
    (handleFetchError02 store msg).1.avg = none :=
  ⟨rfl, rfl, rfl, rfl, rfl, rfl, rfl, rfl, rfl, rfl⟩

/-- C9: the two near-duplicate store variants are extensionally equal: for
every window state and input, AddNumbers, GetAverage and GetCurrentState of
variant 1 return the same results and post-state as those of variant 2. -/
theorem spec_C9 (ns : NumberStore) (b : List Int) :
    AddNumbers ns b = AddNumbers02 ns b ∧
    GetAverage ns = GetAverage02 ns ∧
    GetCurrentState ns = GetCurrentState02 ns := by
  refine ⟨?_, rfl, rfl⟩
  simp only [AddNumbers, AddNumbers02, appendedWindow,
    mergeLoop_eq_02 b ns.numbers ns.numbers]

/-- C10: AddNumbers is total on all inputs; called with the empty batch it
leaves the window unchanged and still returns the pre-merge snapshot, in
both variants, for every window state satisfying the data-model bound. -/
theorem spec_C10 (ns : NumberStore) (hlen : ns.numbers.length ≤ WindowSize) :
    AddNumbers ns [] = (ns.numbers, ns) ∧
    AddNumbers02 ns [] = (ns.numbers, ns) := by
  constructor
  · simp only [AddNumbers, appendedWindow, mergeLoop, gt_iff_lt,
      Nat.not_lt.mpr hlen, if_false]
  · simp only [AddNumbers02, mergeLoop02, gt_iff_lt,
      Nat.not_lt.mpr hlen, if_false]

theorem spec_C10_witness :
    ((⟨[3, 8]⟩ : NumberStore)).numbers.length ≤ WindowSize ∧
      AddNumbers ⟨[3, 8]⟩ [] = ([3, 8], ⟨[3, 8]⟩) ∧
      AddNumbers02 ⟨[3, 8]⟩ [] = ([3, 8], ⟨[3, 8]⟩) :=
  ⟨by decide, (spec_C10 ⟨[3, 8]⟩ (by decide)).1, (spec_C10 ⟨[3, 8]⟩ (by decide)).2⟩
